import Mathlib

/-!
Shallow embedding of `src/main.py` (dmc_finder backend): the index-building
functions `load_excel_mappings` (lines 72-127) and `load_drive_index`
(lines 133-163), the startup sequence `on_startup` (lines 169-174), and the
search path `build_result`/`search` (lines 180-212), together with models of
the Python string primitives they use.
-/

namespace DmcFinder

/-- Model of the whitespace test used by Python `str.strip()`: the ASCII
whitespace characters (space, tab, newline, carriage return, vertical tab,
form feed).  Python also strips some further Unicode space characters; none
of them occur in this development. -/
def isPySpace (c : Char) : Bool :=
  c = ' ' || c = '\t' || c = '\n' || c = '\r' || c = Char.ofNat 11 || c = Char.ofNat 12

/-- Model of Python `str.strip()`: drop leading and trailing whitespace. -/
def pyStrip (s : String) : String :=
  ⟨((s.data.dropWhile isPySpace).reverse.dropWhile isPySpace).reverse⟩

/-- Model of the character test behind Python `str.isdigit`.  Python accepts
every Unicode character with the digit property; this model covers the ASCII
digits together with the Unicode digit blocks exercised here (superscript
digits, Arabic-Indic, extended Arabic-Indic, Devanagari, Bengali, fullwidth).
The point that matters for the development: the set is strictly larger than
the ASCII digits `'0'..'9'`. -/
def isPyDigitChar (c : Char) : Bool :=
  c.isDigit
  || c = '¹' || c = '²' || c = '³'
  || (0x660 ≤ c.toNat && c.toNat ≤ 0x669)
  || (0x6F0 ≤ c.toNat && c.toNat ≤ 0x6F9)
  || (0x966 ≤ c.toNat && c.toNat ≤ 0x96F)
  || (0x9E6 ≤ c.toNat && c.toNat ≤ 0x9EF)
  || (0xFF10 ≤ c.toNat && c.toNat ≤ 0xFF19)

/-- Model of Python `str.isdigit()`: the string is non-empty and every
character is a digit character. -/
def pyIsdigit (s : String) : Bool :=
  !s.data.isEmpty && s.data.all isPyDigitChar

/-- Substring occurrence on character lists, modelling Python's
`pat in s` containment test. -/
def hasInfix (pat : List Char) : List Char → Bool
  | [] => pat.isEmpty
  | c :: rest => List.isPrefixOf pat (c :: rest) || hasInfix pat rest

/-- Model of the Python containment test `pat in s` on strings. -/
def strContains (s pat : String) : Bool :=
  hasInfix pat.data s.data

/-- Model of Python `str.lower()` restricted to ASCII letters, which is all
the headers of this code base use. -/
def pyLower (s : String) : String :=
  ⟨s.data.map Char.toLower⟩

/-- The prefix of `s` before the first occurrence of `stop`, modelling the
Python idiom `s.split(stop)[0]`. -/
def takeUntil (stop : Char) (s : String) : String :=
  ⟨s.data.takeWhile (fun c => c ≠ stop)⟩

/-- The `".0"` removal pass of `clean_num` (src/main.py line 92),
`val.replace(".0", "")`, on character lists: Python `str.replace` rewrites
every non-overlapping occurrence, scanning left to right. -/
def removeDZ : List Char → List Char
  | [] => []
  | [c] => [c]
  | c1 :: c2 :: rest =>
    if c1 = '.' ∧ c2 = '0' then removeDZ rest
    else c1 :: removeDZ (c2 :: rest)

/-- The `".0"` removal step of `clean_num` (src/main.py line 92) on strings. -/
def clean_num_dotzero (s : String) : String :=
  ⟨removeDZ s.data⟩

/-- The `college_to_exam` table: a finite map from college roll to exam roll,
modelled as a lookup function. -/
abbrev SMap := String → Option String

/-- A stored drive-index entry: the dict built at src/main.py lines 157-161. -/
structure FileRecord where
  fileName : String
  fileId : String
  path : String
deriving DecidableEq, Repr

/-- The `exam_to_file` table: a finite map from exam roll to file record. -/
abbrev FMap := String → Option FileRecord

/-- The empty `college_to_exam` table. -/
def emptS : SMap := fun _ => none

/-- The empty `exam_to_file` table. -/
def emptF : FMap := fun _ => none

/-- Python dict assignment `m[k] = v` on the college table. -/
def updateS (m : SMap) (k v : String) : SMap :=
  fun x => if x = k then some v else m x

/-- Python dict assignment `m[k] = v` on the file table. -/
def updateF (m : FMap) (k : String) (v : FileRecord) : FMap :=
  fun x => if x = k then some v else m x

/-- One iteration of the row loop of `load_excel_mappings`
(src/main.py lines 120-125): the pair holds the row's cell values at the
inferred college and exam columns (already passed through the per-cell
strip/clean pass of lines 86-101); the pair is stored only when both values
satisfy `isdigit`. -/
def insertMapping (m : SMap) (p : String × String) : SMap :=
  if pyIsdigit p.1 && pyIsdigit p.2 then updateS m p.1 p.2 else m

/-- The row loop of `load_excel_mappings` over one mapping file's rows. -/
def loadMappingRows (m : SMap) (rows : List (String × String)) : SMap :=
  rows.foldl insertMapping m

/-- `load_excel_mappings` (src/main.py lines 72-127) on the success path:
each element of `files` is one mapping file's rows, listed in the fixed
configured order of the `files` list at lines 75-80. -/
def load_excel_mappings (files : List (List (String × String))) : SMap :=
  files.foldl loadMappingRows emptS

/-- The test `"roll" in name and "exam" not in name` of src/main.py line 110,
on the lowered header name. -/
def collegePred (col : String) : Bool :=
  strContains (pyLower col) "roll" && !strContains (pyLower col) "exam"

/-- The test `"exam" in name` of src/main.py line 112, on the lowered header
name. -/
def examPred (col : String) : Bool :=
  strContains (pyLower col) "exam"

/-- One step of the column-inference loop of `load_excel_mappings`
(src/main.py lines 108-113): state is `(col_college, col_exam)`. -/
def colStep (st : Option String × Option String) (col : String) :
    Option String × Option String :=
  let st1 := if collegePred col then (some col, st.2) else st
  if examPred col then (st1.1, some col) else st1

/-- The column-inference loop of `load_excel_mappings`
(src/main.py lines 105-113) over the stripped header names. -/
def inferCols (cols : List String) : Option String × Option String :=
  cols.foldl colStep (none, none)

/-- Column inference followed by the validity check
`if not col_college or not col_exam: raise RuntimeError(...)`
(src/main.py lines 115-116).  A column name assigned by the loop always
contains `"roll"` or `"exam"`, hence is non-empty, so Python truthiness of
`col_college`/`col_exam` coincides with being not-`None`. -/
def pickCols (cols : List String) : Except Unit (String × String) :=
  match inferCols cols with
  | (some c, some e) => Except.ok (c, e)
  | _ => Except.error ()

/-- One mapping workbook as the loader sees it: its stripped header names
and its rows, each row abstracted to the pair of cell values at the inferred
(college, exam) columns after the per-cell strip/clean pass. -/
structure Sheet where
  cols : List String
  rows : List (String × String)

/-- The distinct failure points of the startup index build. -/
inductive StartErr where
  | mappingMissing
  | mappingInvalid
  | driveMissing
  | driveInvalid
deriving DecidableEq, Repr

/-- Processing of one mapping file inside `load_excel_mappings`
(src/main.py lines 82-125): column inference must succeed (else
`RuntimeError("Invalid mapping file")`), then the row loop runs. -/
def loadSheet (m : SMap) (sh : Sheet) : Except StartErr SMap :=
  match inferCols sh.cols with
  | (some _, some _) => Except.ok (loadMappingRows m sh.rows)
  | _ => Except.error StartErr.mappingInvalid

/-- `load_excel_mappings` with its failure behaviour: each configured file is
`none` when absent on disk, in which case `pd.read_excel` (src/main.py
line 85) raises an uncaught `FileNotFoundError` — there is no try/except
around the loop at lines 82-125, so the first failure propagates. -/
def loadExcelMappingsChecked : List (Option Sheet) → SMap → Except StartErr SMap
  | [], m => Except.ok m
  | none :: _, _ => Except.error StartErr.mappingMissing
  | some sh :: rest, m =>
    match loadSheet m sh with
    | Except.ok m2 => loadExcelMappingsChecked rest m2
    | Except.error e => Except.error e

/-- One manifest (drive index) row: the `File Name`, `File ID` and `Path`
cell values as strings. -/
structure DriveRow where
  fileName : String
  fileId : String
  path : String
deriving DecidableEq, Repr

/-- The exam-roll key derived from a manifest row (src/main.py lines
147-154): trim the file name; take the prefix before the first `"_"` when
one occurs, otherwise the prefix before the first `"."`. -/
def rowKey (r : DriveRow) : String :=
  let fn := pyStrip r.fileName
  if strContains fn "_" then takeUntil '_' fn else takeUntil '.' fn

/-- The record a manifest row would store (src/main.py lines 157-161):
all three fields trimmed. -/
def rowRecord (r : DriveRow) : FileRecord :=
  ⟨pyStrip r.fileName, pyStrip r.fileId, pyStrip r.path⟩

/-- One iteration of the manifest row loop (src/main.py lines 146-161):
the row is stored under its derived key iff the key satisfies `isdigit`;
dict assignment overwrites any entry already present. -/
def insertDriveRow (m : FMap) (r : DriveRow) : FMap :=
  if pyIsdigit (rowKey r) then updateF m (rowKey r) (rowRecord r) else m

/-- The row loop of `load_drive_index` (src/main.py lines 146-161). -/
def load_drive_index (rows : List DriveRow) : FMap :=
  rows.foldl insertDriveRow emptF

/-- The manifest file as the loader sees it: stripped header names and rows. -/
structure DriveSheet where
  cols : List String
  rows : List DriveRow

/-- The headers `load_drive_index` requires (src/main.py line 141). -/
def requiredCols : List String := ["File Name", "File ID", "Path"]

/-- `load_drive_index` with its failure behaviour (src/main.py lines
133-163): a missing manifest makes `pd.read_csv` raise; a manifest lacking
a required column raises `RuntimeError`. -/
def loadDriveIndexChecked (d : Option DriveSheet) : Except StartErr FMap :=
  match d with
  | none => Except.error StartErr.driveMissing
  | some sh =>
    if requiredCols.all (fun c => sh.cols.contains c) then
      Except.ok (load_drive_index sh.rows)
    else Except.error StartErr.driveInvalid

/-- The startup sequence `on_startup` (src/main.py lines 169-174):
`load_excel_mappings` then `load_drive_index`; any exception in either
aborts startup. -/
def on_startup (files : List (Option Sheet)) (drive : Option DriveSheet) :
    Except StartErr (SMap × FMap) :=
  match loadExcelMappingsChecked files emptS with
  | Except.error e => Except.error e
  | Except.ok ce =>
    match loadDriveIndexChecked drive with
    | Except.error e => Except.error e
    | Except.ok em => Except.ok (ce, em)

/-- The observable outcome of a `/search` call. -/
inductive SearchResult where
  | found (collegeRoll : Option String) (examRoll : String) (rec : FileRecord)
  | examNotFound
  | rollNotFound
deriving DecidableEq, Repr

/-- `build_result` (src/main.py lines 180-193): look the exam roll up in
`exam_to_file`; absent means HTTP 404 "Exam Roll not found in drive",
present means a success payload carrying the (optional) college roll, the
exam roll and the file record. -/
def build_result (em : FMap) (examRoll : String) (collegeRoll : Option String) :
    SearchResult :=
  match em examRoll with
  | none => SearchResult.examNotFound
  | some f => SearchResult.found collegeRoll examRoll f

/-- `search` (src/main.py lines 199-212): trim the query; a hit in
`college_to_exam` resolves via the mapped exam roll (carrying the college
roll); otherwise a hit in `exam_to_file` resolves directly (no college
roll); otherwise HTTP 404 "Roll Number not found". -/
def search (ce : SMap) (em : FMap) (q : String) : SearchResult :=
  match ce (pyStrip q) with
  | some examRoll => build_result em examRoll (some (pyStrip q))
  | none =>
    match em (pyStrip q) with
    | some _ => build_result em (pyStrip q) none
    | none => SearchResult.rollNotFound

/-- A non-empty string of ASCII digits (the property named by the spec's
digit-only invariant claim). -/
def isAsciiDigitString (s : String) : Bool :=
  !s.data.isEmpty && s.data.all Char.isDigit

/-- Whether a string ends in the literal suffix `".0"` (the property named
by the spec's trailing-`.0` claim). -/
def endsInDotZero (s : String) : Bool :=
  match s.data.reverse with
  | '0' :: '.' :: _ => true
  | _ => false

/-- The target-column rule as the spec states it: the first header
containing both "exam" and "roll" (case-insensitive), else the first header
containing "exam". -/
def specTargetCol (cols : List String) : Option String :=
  match cols.find? (fun c =>
      strContains (pyLower c) "exam" && strContains (pyLower c) "roll") with
  | some c => some c
  | none => cols.find? (fun c => strContains (pyLower c) "exam")

/-- The source-column rule as the spec states it: the first header containing
both "college" and "roll", else the first header containing "roll" that is
not the chosen target. -/
def specSourceCol (cols : List String) (target : Option String) : Option String :=
  match cols.find? (fun c =>
      strContains (pyLower c) "college" && strContains (pyLower c) "roll") with
  | some c => some c
  | none => cols.find? (fun c => strContains (pyLower c) "roll" && target ≠ some c)

/-- The last element of `l` satisfying `p`, as an `Option`. -/
def findLast (p : α → Bool) (l : List α) : Option α :=
  l.reverse.find? p

/-!  Helper lemmas shared by the claim theorems. -/

theorem findLast_nil (p : α → Bool) : findLast p ([] : List α) = none := rfl

theorem findLast_cons (p : α → Bool) (a : α) (l : List α) :
    findLast p (a :: l) = (findLast p l).or (if p a then some a else none) := by
  simp [findLast, List.find?_append, List.find?_singleton]

/-- Lookup into the college table after the row loop: the stored exam roll
comes from the last digit-valid row whose college roll matches, else from
the initial map. -/
theorem loadMappingRows_lookup (rows : List (String × String)) (m : SMap) (k : String) :
    loadMappingRows m rows k =
      match findLast (fun p => (pyIsdigit p.1 && pyIsdigit p.2) && p.1 == k) rows with
      | some p => some p.2
      | none => m k := by
  induction rows generalizing m with
  | nil => rfl
  | cons r rs ih =>
    show loadMappingRows (insertMapping m r) rs k = _
    rw [ih, findLast_cons]
    cases hfind : findLast (fun p => (pyIsdigit p.1 && pyIsdigit p.2) && p.1 == k) rs with
    | some q => rfl
    | none =>
      simp only [Option.none_or]
      by_cases hc : (pyIsdigit r.1 && pyIsdigit r.2) = true
      · by_cases hk : r.1 = k
        · subst hk
          simp [insertMapping, updateS, hc]
        · have hbeq : (r.1 == k) = false := by simp [hk]
          have hne : k ≠ r.1 := fun h => hk h.symm
          simp [insertMapping, updateS, hc, hbeq, hne]
      · simp [insertMapping, hc]

/-- Lookup into the file table after the manifest row loop: the stored
record comes from the last row whose digit-valid derived key matches, else
from the initial map. -/
theorem load_drive_rows_lookup (rows : List DriveRow) (m : FMap) (k : String) :
    rows.foldl insertDriveRow m k =
      match findLast (fun r => pyIsdigit (rowKey r) && rowKey r == k) rows with
      | some r => some (rowRecord r)
      | none => m k := by
  induction rows generalizing m with
  | nil => rfl
  | cons r rs ih =>
    rw [List.foldl_cons, ih, findLast_cons]
    cases hfind : findLast (fun r => pyIsdigit (rowKey r) && rowKey r == k) rs with
    | some q => rfl
    | none =>
      simp only [Option.none_or]
      by_cases hc : pyIsdigit (rowKey r) = true
      · by_cases hk : rowKey r = k
        · subst hk
          simp [insertDriveRow, updateF, hc]
        · have hbeq : (rowKey r == k) = false := by simp [hk]
          have hne : k ≠ rowKey r := fun h => hk h.symm
          simp [insertDriveRow, updateF, hc, hbeq, hne]
      · simp [insertDriveRow, hc]

theorem load_excel_mappings_flatten (files : List (List (String × String))) :
    load_excel_mappings files = loadMappingRows emptS files.flatten := by
  unfold load_excel_mappings loadMappingRows
  rw [List.foldl_flatten]

theorem colStep_fst (st : Option String × Option String) (col : String) :
    (colStep st col).1 = if collegePred col then some col else st.1 := by
  unfold colStep
  by_cases hc : collegePred col <;> by_cases he : examPred col <;> simp [hc, he]

theorem colStep_snd (st : Option String × Option String) (col : String) :
    (colStep st col).2 = if examPred col then some col else st.2 := by
  unfold colStep
  by_cases hc : collegePred col <;> by_cases he : examPred col <;> simp [hc, he]

theorem colFold_fst (cols : List String) (st : Option String × Option String) :
    (cols.foldl colStep st).1 = (findLast collegePred cols).or st.1 := by
  induction cols generalizing st with
  | nil => rfl
  | cons c cs ih =>
    rw [List.foldl_cons, ih, findLast_cons, colStep_fst]
    cases findLast collegePred cs with
    | some q => rfl
    | none => by_cases hc : collegePred c <;> simp [hc]

theorem colFold_snd (cols : List String) (st : Option String × Option String) :
    (cols.foldl colStep st).2 = (findLast examPred cols).or st.2 := by
  induction cols generalizing st with
  | nil => rfl
  | cons c cs ih =>
    rw [List.foldl_cons, ih, findLast_cons, colStep_snd]
    cases findLast examPred cs with
    | some q => rfl
    | none => by_cases he : examPred c <;> simp [he]

/-- The column-inference loop keeps, for each of the two slots, the last
header satisfying its test. -/
theorem inferCols_eq (cols : List String) :
    inferCols cols = (findLast collegePred cols, findLast examPred cols) := by
  unfold inferCols
  have h1 := colFold_fst cols (none, none)
  have h2 := colFold_snd cols (none, none)
  rw [Option.or_none] at h1 h2
  exact Prod.ext h1 h2

/-- A college table whose keys and values all pass `isdigit`. -/
def DigitMap (m : SMap) : Prop :=
  ∀ k v, m k = some v → pyIsdigit k = true ∧ pyIsdigit v = true

theorem digitMap_emptS : DigitMap emptS := by
  intro k v h
  exact absurd h (by simp [emptS])

theorem digitMap_insertMapping (m : SMap) (p : String × String) (H : DigitMap m) :
    DigitMap (insertMapping m p) := by
  intro k v h
  unfold insertMapping at h
  by_cases hc : (pyIsdigit p.1 && pyIsdigit p.2) = true
  · rw [if_pos hc] at h
    rw [Bool.and_eq_true] at hc
    unfold updateS at h
    by_cases hk : k = p.1
    · rw [if_pos hk] at h
      injection h with hv
      subst hv
      subst hk
      exact hc
    · rw [if_neg hk] at h
      exact H k v h
  · rw [if_neg hc] at h
    exact H k v h

theorem digitMap_loadMappingRows (rows : List (String × String)) (m : SMap)
    (H : DigitMap m) : DigitMap (loadMappingRows m rows) := by
  induction rows generalizing m with
  | nil => exact H
  | cons p rs ih => exact ih (insertMapping m p) (digitMap_insertMapping m p H)

theorem digitMap_load_excel_mappings (files : List (List (String × String))) :
    DigitMap (load_excel_mappings files) := by
  rw [load_excel_mappings_flatten]
  exact digitMap_loadMappingRows files.flatten emptS digitMap_emptS

/-- A file table whose keys all pass `isdigit`. -/
def DigitKeys (m : FMap) : Prop :=
  ∀ k f, m k = some f → pyIsdigit k = true

theorem digitKeys_emptF : DigitKeys emptF := by
  intro k f h
  exact absurd h (by simp [emptF])

theorem digitKeys_insertDriveRow (m : FMap) (r : DriveRow) (H : DigitKeys m) :
    DigitKeys (insertDriveRow m r) := by
  intro k f h
  unfold insertDriveRow at h
  by_cases hc : pyIsdigit (rowKey r) = true
  · rw [if_pos hc] at h
    unfold updateF at h
    by_cases hk : k = rowKey r
    · subst hk
      exact hc
    · rw [if_neg hk] at h
      exact H k f h
  · rw [if_neg hc] at h
    exact H k f h

theorem digitKeys_load_drive_rows (rows : List DriveRow) (m : FMap)
    (H : DigitKeys m) : DigitKeys (rows.foldl insertDriveRow m) := by
  induction rows generalizing m with
  | nil => exact H
  | cons r rs ih => exact ih (insertDriveRow m r) (digitKeys_insertDriveRow m r H)

theorem digitKeys_load_drive_index (rows : List DriveRow) :
    DigitKeys (load_drive_index rows) :=
  digitKeys_load_drive_rows rows emptF digitKeys_emptF

theorem removeDZ_cons_ne (c1 c2 : Char) (rest : List Char)
    (h : ¬(c1 = '.' ∧ c2 = '0')) :
    removeDZ (c1 :: c2 :: rest) = c1 :: removeDZ (c2 :: rest) := by
  simp only [removeDZ]
  rw [if_neg h]

theorem removeDZ_dz_head (rest : List Char) :
    removeDZ ('.' :: '0' :: rest) = removeDZ rest := by
  simp [removeDZ]

theorem hasInfix_dz_tail (c : Char) (rest : List Char)
    (h : hasInfix ['.', '0'] (c :: rest) = false) :
    hasInfix ['.', '0'] rest = false := by
  unfold hasInfix at h
  exact (Bool.or_eq_false_iff.mp h).2

/-- A string free of `".0"` is unchanged by the replacement pass. -/
theorem removeDZ_no_occurrence (l : List Char) :
    hasInfix ['.', '0'] l = false → removeDZ l = l := by
  induction l using removeDZ.induct with
  | case1 => intro _; rfl
  | case2 c => intro _; rfl
  | case3 c1 c2 rest hdz ih =>
    intro h
    obtain ⟨h1, h2⟩ := hdz
    subst h1
    subst h2
    simp [hasInfix, List.isPrefixOf] at h
  | case4 c1 c2 rest hdz ih =>
    intro h
    rw [removeDZ_cons_ne c1 c2 rest hdz, ih (hasInfix_dz_tail c1 (c2 :: rest) h)]

/-- Appending `".0"` to a `".0"`-free string: the replacement pass removes
exactly that trailing occurrence. -/
theorem removeDZ_append (t : List Char) :
    hasInfix ['.', '0'] t = false → removeDZ (t ++ ['.', '0']) = t := by
  induction t using removeDZ.induct with
  | case1 =>
    intro _
    rw [List.nil_append, removeDZ_dz_head]
    rfl
  | case2 c =>
    intro _
    have hne : ¬(c = '.' ∧ ('.' : Char) = '0') := by
      rintro ⟨_, h2⟩
      exact absurd h2 (by decide)
    show removeDZ (c :: '.' :: ('0' :: [])) = [c]
    rw [removeDZ_cons_ne c '.' ('0' :: []) hne, removeDZ_dz_head]
    rfl
  | case3 c1 c2 rest hdz ih =>
    intro h
    obtain ⟨h1, h2⟩ := hdz
    subst h1
    subst h2
    simp [hasInfix, List.isPrefixOf] at h
  | case4 c1 c2 rest hdz ih =>
    intro h
    show removeDZ (c1 :: c2 :: (rest ++ ['.', '0'])) = c1 :: c2 :: rest
    rw [removeDZ_cons_ne c1 c2 (rest ++ ['.', '0']) hdz]
    have := ih (hasInfix_dz_tail c1 (c2 :: rest) h)
    rw [List.cons_append] at this
    rw [this]

theorem loadChecked_ok_all_some (files : List (Option Sheet)) :
    ∀ (m m' : SMap), loadExcelMappingsChecked files m = Except.ok m' →
      ∀ f ∈ files, f.isSome := by
  induction files with
  | nil =>
    intro m m' _ f hf
    simp at hf
  | cons o rest ih =>
    intro m m' h f hf
    cases o with
    | none => simp [loadExcelMappingsChecked] at h
    | some sh =>
      unfold loadExcelMappingsChecked at h
      rcases List.mem_cons.mp hf with hf1 | hf2
      · subst hf1
        rfl
      · cases hsheet : loadSheet m sh with
        | ok m2 =>
          rw [hsheet] at h
          exact ih m2 m' h f hf2
        | error e =>
          rw [hsheet] at h
          simp at h

theorem driveChecked_ok_isSome (d : Option DriveSheet) (em : FMap)
    (h : loadDriveIndexChecked d = Except.ok em) : d.isSome := by
  cases d with
  | none => simp [loadDriveIndexChecked] at h
  | some sh => rfl

theorem insertDriveRow_skip (m : FMap) (r : DriveRow)
    (h : pyIsdigit (rowKey r) = false) : insertDriveRow m r = m := by
  unfold insertDriveRow
  rw [h]
  simp

/-!  The claims. -/

/-- C1, counterexample: two manifest rows both derive exam-roll `"900"`;
`load_drive_index` retains the second row's record, not the first row's, so
first-write-wins fails on the code. -/
theorem c1_first_wins_counterexample :
    load_drive_index [⟨"900_a.pdf", "id1", "p1"⟩, ⟨"900_b.pdf", "id2", "p2"⟩] "900"
        = some ⟨"900_b.pdf", "id2", "p2"⟩ ∧
      (⟨"900_b.pdf", "id2", "p2"⟩ : FileRecord) ≠ ⟨"900_a.pdf", "id1", "p1"⟩ := by
  decide

/-- C1, amended: for every manifest, when two or more rows derive the same
exam-roll key, `ExamToFile` retains the record of the LAST such row
(dict assignment overwrites): the lookup equals the last digit-valid row
whose derived key matches, and is empty otherwise. -/
theorem c1_drive_index_last_wins (rows : List DriveRow) (k : String) :
    load_drive_index rows k =
      match findLast (fun r => pyIsdigit (rowKey r) && rowKey r == k) rows with
      | some r => some (rowRecord r)
      | none => none :=
  load_drive_rows_lookup rows emptF k

/-- C2, counterexample: a missing first mapping file aborts the startup
build with an uncaught read error even though a later valid mapping file
and a valid manifest exist — the source is not skipped. -/
theorem c2_missing_mapping_fatal_counterexample :
    on_startup [none, some ⟨["roll", "exam"], [("100", "900")]⟩]
        (some ⟨["File Name", "File ID", "Path"], []⟩)
      = Except.error StartErr.mappingMissing := rfl

/-- C2, amended: startup succeeds only when every configured mapping file is
present and the manifest is present; a missing mapping-source file is
equally fatal to the startup build (there is no warn-and-skip path). -/
theorem c2_startup_ok_requires_all_sources (files : List (Option Sheet))
    (drive : Option DriveSheet) (ce : SMap) (em : FMap)
    (h : on_startup files drive = Except.ok (ce, em)) :
    (∀ f ∈ files, f.isSome) ∧ drive.isSome := by
  unfold on_startup at h
  cases hm : loadExcelMappingsChecked files emptS with
  | error e =>
    rw [hm] at h
    simp at h
  | ok ce2 =>
    rw [hm] at h
    cases hd : loadDriveIndexChecked drive with
    | error e =>
      rw [hd] at h
      simp at h
    | ok em2 =>
      exact ⟨loadChecked_ok_all_some files emptS ce2 hm,
        driveChecked_ok_isSome drive em2 hd⟩

/-- Witness for C2: a concrete successful startup, from which the theorem
yields that all sources were present. -/
theorem c2_startup_ok_requires_all_sources_witness :
    (∀ f ∈ [some (⟨["roll", "exam"], [("100", "900")]⟩ : Sheet)], f.isSome) ∧
      (some (⟨["File Name", "File ID", "Path"], []⟩ : DriveSheet)).isSome :=
  c2_startup_ok_requires_all_sources [some ⟨["roll", "exam"], [("100", "900")]⟩]
    (some ⟨["File Name", "File ID", "Path"], []⟩)
    (loadMappingRows emptS [("100", "900")]) (load_drive_index []) rfl

/-- C3: `search` trims the input; a hit in `CollegeToExam` resolves through
`ExamToFile` (absent exam roll gives the exam-roll-unresolved NotFound);
otherwise a direct hit in `ExamToFile` yields a result with absent college
roll; otherwise the roll-unresolved NotFound. -/
theorem c3_search_resolution (ce : SMap) (em : FMap) (q : String) :
    (ce (pyStrip q) = none → em (pyStrip q) = none →
      search ce em q = SearchResult.rollNotFound) ∧
    (∀ e, ce (pyStrip q) = some e → em e = none →
      search ce em q = SearchResult.examNotFound) ∧
    (∀ e f, ce (pyStrip q) = some e → em e = some f →
      search ce em q = SearchResult.found (some (pyStrip q)) e f) ∧
    (∀ f, ce (pyStrip q) = none → em (pyStrip q) = some f →
      search ce em q = SearchResult.found none (pyStrip q) f) := by
  refine ⟨?_, ?_, ?_, ?_⟩
  · intro h1 h2
    simp [search, build_result, h1, h2]
  · intro e h1 h2
    simp [search, build_result, h1, h2]
  · intro e f h1 h2
    simp [search, build_result, h1, h2]
  · intro f h1 h2
    simp [search, build_result, h1, h2]

/-- Witness for C3: the four branches at concrete tables and queries. -/
theorem c3_search_resolution_witness :
    search emptS emptF "x" = SearchResult.rollNotFound ∧
    search (updateS emptS "1" "9") emptF "1" = SearchResult.examNotFound ∧
    search (updateS emptS "1" "9") (updateF emptF "9" ⟨"9_a.pdf", "i", "p"⟩) "1"
        = SearchResult.found (some "1") "9" ⟨"9_a.pdf", "i", "p"⟩ ∧
    search emptS (updateF emptF "9" ⟨"9_a.pdf", "i", "p"⟩) "9"
        = SearchResult.found none "9" ⟨"9_a.pdf", "i", "p"⟩ :=
  ⟨(c3_search_resolution emptS emptF "x").1 (by decide) (by decide),
   (c3_search_resolution (updateS emptS "1" "9") emptF "1").2.1 "9"
     (by decide) (by decide),
   (c3_search_resolution (updateS emptS "1" "9")
       (updateF emptF "9" ⟨"9_a.pdf", "i", "p"⟩) "1").2.2.1 "9"
     ⟨"9_a.pdf", "i", "p"⟩ (by decide) (by decide),
   (c3_search_resolution emptS (updateF emptF "9" ⟨"9_a.pdf", "i", "p"⟩) "9").2.2.2
     ⟨"9_a.pdf", "i", "p"⟩ (by decide) (by decide)⟩

/-- C4, counterexample: on headers
`["college roll", "roll", "exam roll", "exam"]` the code's inference picks
`("roll", "exam")` — the LAST header containing "roll"-but-not-"exam" and
the LAST header containing "exam" — while the claim's rules pick target
`"exam roll"` and source `"college roll"`. -/
theorem c4_column_inference_counterexample :
    pickCols ["college roll", "roll", "exam roll", "exam"] = Except.ok ("roll", "exam") ∧
    specTargetCol ["college roll", "roll", "exam roll", "exam"] = some "exam roll" ∧
    specSourceCol ["college roll", "roll", "exam roll", "exam"] (some "exam roll")
        = some "college roll" ∧
    (("roll", "exam") : String × String) ≠ ("college roll", "exam roll") := by
  exact ⟨rfl, by decide, by decide, by decide⟩

/-- C4, amended: inference keeps the LAST header containing "roll" but not
"exam" as source and the LAST header containing "exam" as target
(case-insensitive, no "college" or strict exam-and-roll preference), and
fails with the single `RuntimeError("Invalid mapping file")` when either
slot stays empty. -/
theorem c4_column_inference_last_match (cols : List String) :
    pickCols cols =
      match findLast collegePred cols, findLast examPred cols with
      | some c, some e => Except.ok (c, e)
      | _, _ => Except.error () := by
  unfold pickCols
  rw [inferCols_eq]
  cases findLast collegePred cols <;> cases findLast examPred cols <;> rfl

/-- C5: last-write-wins across all mapping sources processed in the fixed
configured order: the final `CollegeToExam` entry for a key comes from the
last digit-valid occurrence of that key across the concatenated row lists. -/
theorem c5_mappings_last_write_wins (files : List (List (String × String))) (k : String) :
    load_excel_mappings files k =
      match findLast (fun p => (pyIsdigit p.1 && pyIsdigit p.2) && p.1 == k)
          files.flatten with
      | some p => some p.2
      | none => none := by
  rw [load_excel_mappings_flatten]
  exact loadMappingRows_lookup files.flatten emptS k

/-- C6, counterexample: the Arabic-Indic digit string `"٣"` passes Python's
`isdigit` and is stored as a `CollegeToExam` key, yet it is not a string of
ASCII digits. -/
theorem c6_ascii_digit_counterexample :
    load_excel_mappings [[("٣", "5")]] "٣" = some "5" ∧
    isAsciiDigitString "٣" = false ∧ pyIsdigit "٣" = true := by
  decide

/-- C6, amended: after any index build, every key and value of
`CollegeToExam` and every key of `ExamToFile` satisfies Python `isdigit`
(hence is non-empty and all Unicode digits — not necessarily ASCII);
non-conforming cells and keys are never stored. -/
theorem c6_digit_invariant (files : List (List (String × String)))
    (rows : List DriveRow) :
    (∀ k v, load_excel_mappings files k = some v →
      pyIsdigit k = true ∧ pyIsdigit v = true) ∧
    (∀ k f, load_drive_index rows k = some f → pyIsdigit k = true) :=
  ⟨digitMap_load_excel_mappings files, digitKeys_load_drive_index rows⟩

/-- Witness for C6: a stored pair, whose key and value the theorem shows to
be digit strings. -/
theorem c6_digit_invariant_witness :
    pyIsdigit "100" = true ∧ pyIsdigit "900" = true :=
  (c6_digit_invariant [[("100", "900")]] []).1 "100" "900" (by decide)

/-- C7, counterexample: a manifest row whose derived key `"abc"` contains
non-digits is NOT inserted — the loader does validate the derived key with
`isdigit` (src/main.py line 156), contrary to the claim. -/
theorem c7_nondigit_key_counterexample :
    rowKey ⟨"abc_1.pdf", "id", "p"⟩ = "abc" ∧
    pyIsdigit "abc" = false ∧
    load_drive_index [⟨"abc_1.pdf", "id", "p"⟩] "abc" = none := by
  decide

/-- C7, amended: the manifest loader DOES apply digit-only validation: a row
whose derived exam-roll key fails `isdigit` leaves `ExamToFile` unchanged. -/
theorem c7_manifest_digit_validation (m : FMap) (r : DriveRow)
    (h : pyIsdigit (rowKey r) = false) : insertDriveRow m r = m :=
  insertDriveRow_skip m r h

/-- Witness for C7 at a concrete non-digit-keyed row. -/
theorem c7_manifest_digit_validation_witness :
    pyIsdigit (rowKey ⟨"abc_1.pdf", "id", "p"⟩) = false ∧
    insertDriveRow emptF ⟨"abc_1.pdf", "id", "p"⟩ = emptF :=
  ⟨by decide, c7_manifest_digit_validation emptF ⟨"abc_1.pdf", "id", "p"⟩ (by decide)⟩

/-- C8, counterexample: `"1.05"` does not end in `".0"`, yet the `.0` step
rewrites it to `"15"` — `str.replace` removes every occurrence, not only a
trailing suffix. -/
theorem c8_dotzero_counterexample :
    endsInDotZero "1.05" = false ∧ clean_num_dotzero "1.05" = "15" ∧
    "15" ≠ "1.05" := by
  decide

/-- C8, amended: the `.0` step removes every (left-to-right,
non-overlapping) occurrence of `".0"`: a string with no occurrence at all is
unchanged, and a `".0"`-free string with `".0"` appended loses exactly that
suffix; but a string containing `".0"` elsewhere is altered even without a
trailing `".0"`. -/
theorem c8_dotzero_replace_all :
    (∀ s : String, strContains s ".0" = false → clean_num_dotzero s = s) ∧
    (∀ t : String, strContains t ".0" = false → clean_num_dotzero (t ++ ".0") = t) := by
  constructor
  · intro s h
    unfold clean_num_dotzero
    have h' : hasInfix ['.', '0'] s.data = false := h
    rw [removeDZ_no_occurrence s.data h']
  · intro t h
    unfold clean_num_dotzero
    have h' : hasInfix ['.', '0'] t.data = false := h
    rw [String.data_append]
    have hdz : (".0" : String).data = ['.', '0'] := rfl
    rw [hdz, removeDZ_append t.data h']

/-- Witness for C8 at concrete strings. -/
theorem c8_dotzero_replace_all_witness :
    strContains "15" ".0" = false ∧ clean_num_dotzero "15" = "15" ∧
    strContains "123" ".0" = false ∧ clean_num_dotzero ("123" ++ ".0") = "123" :=
  ⟨by decide, c8_dotzero_replace_all.1 "15" (by decide), by decide,
   c8_dotzero_replace_all.2 "123" (by decide)⟩

/-- C9, counterexample: a manifest row with empty remote-id (`File ID`) but
a digit-valid file name IS stored — the loader never checks the remote-id
field, contrary to the claim. -/
theorem c9_empty_id_counterexample :
    pyStrip "" = "" ∧
    load_drive_index [⟨"123.pdf", "", "p"⟩] "123" = some ⟨"123.pdf", "", "p"⟩ := by
  decide

/-- C9, amended: rows are skipped exactly through the digit test on the
derived key: an empty (trimmed) file name derives the empty key, which
fails `isdigit`, so such a row stores nothing; an empty remote-id alone
does not cause a skip. -/
theorem c9_empty_filename_skipped (m : FMap) (r : DriveRow)
    (h : pyStrip r.fileName = "") : insertDriveRow m r = m := by
  have hkey : rowKey r = "" := by
    unfold rowKey
    rw [h]
    decide
  exact insertDriveRow_skip m r (by rw [hkey]; decide)

/-- Witness for C9 at a whitespace-only file name. -/
theorem c9_empty_filename_skipped_witness :
    pyStrip " " = "" ∧ insertDriveRow emptF ⟨" ", "id", "p"⟩ = emptF :=
  ⟨by decide, c9_empty_filename_skipped emptF ⟨" ", "id", "p"⟩ (by decide)⟩

/-- C10, counterexample: the trimmed query `"٣"` consists of a character
that is not an ASCII digit, yet `search` on loader-built tables returns a
success record, because Python `isdigit` admits non-ASCII digit keys. -/
theorem c10_nonascii_search_counterexample :
    isAsciiDigitString (pyStrip "٣") = false ∧
    search (load_excel_mappings []) (load_drive_index [⟨"٣_x.pdf", "id", "p"⟩]) "٣"
        = SearchResult.found none "٣" ⟨"٣_x.pdf", "id", "p"⟩ := by
  decide

/-- C10, amended: for loader-built tables, a query whose trimmed value fails
Python `isdigit` (empty, or containing any non-digit character) always gets
the roll-unresolved NotFound, since every stored key passes `isdigit`. -/
theorem c10_search_nondigit_notfound (files : List (List (String × String)))
    (rows : List DriveRow) (q : String)
    (h : pyIsdigit (pyStrip q) = false) :
    search (load_excel_mappings files) (load_drive_index rows) q
      = SearchResult.rollNotFound := by
  have hce : load_excel_mappings files (pyStrip q) = none := by
    cases hx : load_excel_mappings files (pyStrip q) with
    | none => rfl
    | some v =>
      have hd := (digitMap_load_excel_mappings files (pyStrip q) v hx).1
      rw [h] at hd
      exact absurd hd (by decide)
  have hem : load_drive_index rows (pyStrip q) = none := by
    cases hx : load_drive_index rows (pyStrip q) with
    | none => rfl
    | some f =>
      have hd := digitKeys_load_drive_index rows (pyStrip q) f hx
      rw [h] at hd
      exact absurd hd (by decide)
  unfold search
  rw [hce, hem]

/-- Witness for C10 at the query `"abc"`. -/
theorem c10_search_nondigit_notfound_witness :
    pyIsdigit (pyStrip "abc") = false ∧
    search (load_excel_mappings []) (load_drive_index []) "abc"
        = SearchResult.rollNotFound :=
  ⟨by decide, c10_search_nondigit_notfound [] [] "abc" (by decide)⟩

end DmcFinder
